import Mathlib

/-!
Shallow embedding of `subs4a.py` (Subtitles_Overlay): the virtual subtitle
clock, the caption store and first-match lookup, the update loop, and the
SRT timestamp arithmetic. Python floats are modelled as exact rationals
(`ℚ`); wall-clock readings (`time.time()`) are passed explicitly as a
`now : ℚ` argument.
-/

/-- A parsed caption entry (`class Subtitle` in the source). The source
field `end` is a Lean keyword, so it is named `stop` here. -/
structure Subtitle where
  start : ℚ
  stop : ℚ
  text : String
deriving Repr, DecidableEq

/-- The mutable state of `SubtitleOverlay` relevant to the core
(clock fields, caption store, update-loop cache, timer toggle).
Presentation-only fields (font size, labels, drag position) are omitted. -/
structure OverlayState where
  subtitles : List Subtitle
  start_offset : ℚ
  time_multiplier : ℚ
  current_subtitle : String
  paused : Bool
  pause_time : ℚ
  elapsed_paused : ℚ
  show_timer : Bool
  playback_start : ℚ
deriving Repr, DecidableEq

/-- Source `SubtitleOverlay.get_elapsed_real`: frozen at
`pause_time - playback_start - elapsed_paused` while paused, otherwise
`now - playback_start - elapsed_paused`. -/
def get_elapsed_real (st : OverlayState) (now : ℚ) : ℚ :=
  if st.paused then st.pause_time - st.playback_start - st.elapsed_paused
  else now - st.playback_start - st.elapsed_paused

/-- Source `SubtitleOverlay.elapsed_subtitle`:
`elapsed_real * time_multiplier / 24 + start_offset`. -/
def elapsed_subtitle (st : OverlayState) (elapsed_real : ℚ) : ℚ :=
  elapsed_real * st.time_multiplier / 24 + st.start_offset

/-- Source `SubtitleOverlay.adjust_time_multiplier`: adjust `time_multiplier` by
`±0.001` (increase capped above at `122.0`, decrease capped below at `0.1`),
recomputing `start_offset` so that the current subtitle time is unchanged. -/
def adjust_time_multiplier (st : OverlayState) (now : ℚ) (increase : Bool) :
    OverlayState :=
  let step : ℚ := 0.001
  let min_coeff : ℚ := 0.1
  let max_coeff : ℚ := 122.0
  let elapsed_real := get_elapsed_real st now
  let elapsed_sub := elapsed_subtitle st elapsed_real
  let new_coeff :=
    if increase then min max_coeff (st.time_multiplier + step)
    else max min_coeff (st.time_multiplier - step)
  { st with
    start_offset := elapsed_sub - elapsed_real * new_coeff / 24
    time_multiplier := new_coeff }

/-- The `Key_Space` branch of `SubtitleOverlay.keyPressEvent`: toggle
pause/resume. Resuming adds `now - pause_time` to `elapsed_paused`;
pausing records `pause_time := now`. -/
def toggle_pause (st : OverlayState) (now : ℚ) : OverlayState :=
  if st.paused then
    { st with
      paused := false
      elapsed_paused := st.elapsed_paused + (now - st.pause_time) }
  else
    { st with paused := true, pause_time := now }

/-- The `Key_Left`/`Key_Right` branches of `keyPressEvent`:
`start_offset += delta` (the source uses `delta = ±0.5`). -/
def shift_offset (st : OverlayState) (delta : ℚ) : OverlayState :=
  { st with start_offset := st.start_offset + delta }

/-- The lookup loop of `SubtitleOverlay.update_subtitle`: scan the caption
list in order and return the text of the first caption whose interval
contains `v` (both ends inclusive); `""` if none does. -/
def find_subtitle (subs : List Subtitle) (v : ℚ) : String :=
  match subs with
  | [] => ""
  | s :: rest => if s.start ≤ v ∧ v ≤ s.stop then s.text else find_subtitle rest v

/-- Python `int()` on a rational: truncation toward zero. -/
def pyInt (q : ℚ) : ℤ :=
  if 0 ≤ q then ⌊q⌋ else ⌈q⌉

/-- Python `%` on rationals: `a % b = a - b * ⌊a / b⌋`. -/
def pyMod (a b : ℚ) : ℚ :=
  a - b * ⌊a / b⌋

/-- Python `//` on rationals: `⌊a / b⌋`, returned as a rational. -/
def pyFloorDiv (a b : ℚ) : ℚ :=
  (⌊a / b⌋ : ℚ)

/-- Source `hours = int(elapsed // 3600)` in `update_subtitle`. -/
def timer_hours (v : ℚ) : ℤ := pyInt (pyFloorDiv v 3600)

/-- Source `minutes = int((elapsed % 3600) // 60)` in `update_subtitle`. -/
def timer_minutes (v : ℚ) : ℤ := pyInt (pyFloorDiv (pyMod v 3600) 60)

/-- Source `seconds = int(elapsed % 60)` in `update_subtitle`. -/
def timer_seconds (v : ℚ) : ℤ := pyInt (pyMod v 60)

/-- Source `milliseconds = int((elapsed - int(elapsed)) * 1000)` in
`update_subtitle`. -/
def timer_milliseconds (v : ℚ) : ℤ := pyInt ((v - (pyInt v : ℚ)) * 1000)

/-- Zero-pad the decimal rendering of `n` to width `w`, as Python's
`f-string` `{n:0wd}` does (the sign counts toward the width). -/
def padNum (w : ℕ) (n : ℤ) : String :=
  if n < 0 then
    "-" ++ (String.mk (List.replicate (w - 1 - (toString (-n)).length) '0'))
      ++ toString (-n)
  else
    (String.mk (List.replicate (w - (toString n).length) '0')) ++ toString n

/-- The `timer_text` string built in `update_subtitle`:
`f"{hours:02d}:{minutes:02d}:{seconds:02d}.{milliseconds:03d}"`. -/
def format_timer (v : ℚ) : String :=
  padNum 2 (timer_hours v) ++ ":" ++ padNum 2 (timer_minutes v) ++ ":"
    ++ padNum 2 (timer_seconds v) ++ "." ++ padNum 3 (timer_milliseconds v)

/-- One tick of `SubtitleOverlay.update_subtitle`: returns the updated
state, the caption-changed emission (`some text` iff the looked-up text
differs from `current_subtitle`, in which case the cache is updated), and
the timer emission (`some (format_timer v)` iff `show_timer`). -/
def update_subtitle (st : OverlayState) (now : ℚ) :
    OverlayState × Option String × Option String :=
  let elapsed_real := get_elapsed_real st now
  let elapsed := elapsed_subtitle st elapsed_real
  let subtitle_text := find_subtitle st.subtitles elapsed
  let pair :=
    if subtitle_text ≠ st.current_subtitle then
      ({ st with current_subtitle := subtitle_text }, some subtitle_text)
    else (st, none)
  let timer_out := if st.show_timer then some (format_timer elapsed) else none
  (pair.1, pair.2, timer_out)

/-- Source `time_to_seconds` inside `parse_srt`:
`int(h)*3600 + int(m)*60 + int(s) + int(ms)/1000`. The regex
`\d{2}:\d{2}:\d{2},\d{3}` guarantees each timestamp splits into four
natural-number fields, so a matched timestamp is modelled as that
quadruple. -/
structure Timestamp where
  h : ℕ
  m : ℕ
  s : ℕ
  ms : ℕ
deriving Repr, DecidableEq

def time_to_seconds (t : Timestamp) : ℚ :=
  (t.h : ℚ) * 3600 + (t.m : ℚ) * 60 + (t.s : ℚ) + (t.ms : ℚ) / 1000

/-- The caption `parse_srt` appends for one regex match: start and end
times converted by `time_to_seconds`, text taken from the fourth group.
The regex accepts any pair of well-formed timestamps; it imposes no
ordering between them. -/
def parsed_caption (t1 t2 : Timestamp) (text : String) : Subtitle :=
  { start := time_to_seconds t1, stop := time_to_seconds t2, text := text }

/-! ## Sample states for witnesses and counterexamples -/

/-- The caption pair used by the spec's examples. -/
def sampleCaptions : List Subtitle :=
  [{ start := 0, stop := 2, text := "Hello" },
   { start := 2, stop := 4, text := "World" }]

/-- A concrete running state with default configuration. -/
def baseState : OverlayState :=
  { subtitles := sampleCaptions
    start_offset := 0
    time_multiplier := 24
    current_subtitle := ""
    paused := false
    pause_time := 0
    elapsed_paused := 0
    show_timer := false
    playback_start := 0 }

/-! ## Claims -/

/-- Claim C1: anchor preservation under scale recalibration. For every
state and every call to `adjust_time_multiplier`, in either direction and
including clamped cases, `elapsed_subtitle (get_elapsed_real ·)` evaluated
at the same instant immediately after the call equals its value before the
call; only `time_multiplier` (the future rate) and `start_offset` change. -/
theorem adjust_scale_anchor_preserved (st : OverlayState) (now : ℚ)
    (inc : Bool) :
    elapsed_subtitle (adjust_time_multiplier st now inc)
      (get_elapsed_real (adjust_time_multiplier st now inc) now) =
    elapsed_subtitle st (get_elapsed_real st now) := by
  simp only [adjust_time_multiplier, get_elapsed_real, elapsed_subtitle]
  ring

/-- Claim C4: pause freezes virtual time. While `paused = true`,
`get_elapsed_real` ignores the wall clock, so two evaluations of
`elapsed_subtitle (get_elapsed_real ·)` at arbitrary real instants agree. -/
theorem pause_freezes_virtual_time (st : OverlayState) (now1 now2 : ℚ)
    (h : st.paused = true) :
    elapsed_subtitle st (get_elapsed_real st now1) =
      elapsed_subtitle st (get_elapsed_real st now2) := by
  simp [get_elapsed_real, h]

theorem pause_freezes_virtual_time_witness :
    ({ baseState with paused := true }).paused = true ∧
    elapsed_subtitle { baseState with paused := true }
        (get_elapsed_real { baseState with paused := true } 5) =
      elapsed_subtitle { baseState with paused := true }
        (get_elapsed_real { baseState with paused := true } 1000) :=
  ⟨by decide, pause_freezes_virtual_time _ 5 1000 (by decide)⟩

/-- Claim C5: resume accounting. Toggling pause from the `paused` state at
instant `now` adds exactly `now - pause_time` to `elapsed_paused`, clears
`paused`, leaves every other field unchanged, and `get_elapsed_real`
evaluated at that same instant equals the frozen value it had while
paused. -/
theorem resume_accounting (st : OverlayState) (now : ℚ)
    (h : st.paused = true) :
    toggle_pause st now =
      { st with
        paused := false
        elapsed_paused := st.elapsed_paused + (now - st.pause_time) } ∧
    get_elapsed_real (toggle_pause st now) now = get_elapsed_real st now := by
  refine ⟨by simp [toggle_pause, h], ?_⟩
  simp only [toggle_pause, h, if_true, get_elapsed_real]
  simp
  ring

theorem resume_accounting_witness :
    ({ baseState with paused := true, pause_time := 7 }).paused = true ∧
    (toggle_pause { baseState with paused := true, pause_time := 7 } 9 =
      { baseState with
        paused := false, pause_time := 7, elapsed_paused := 0 + (9 - 7) } ∧
     get_elapsed_real
        (toggle_pause { baseState with paused := true, pause_time := 7 } 9) 9 =
       get_elapsed_real { baseState with paused := true, pause_time := 7 } 9) :=
  ⟨by decide, resume_accounting _ 9 (by decide)⟩

/-- Claim C6: offset linearity. For a fixed `elapsed_real` snapshot,
`shift_offset delta` increases `elapsed_subtitle` by exactly `delta`,
performs `start_offset += delta`, and leaves `time_multiplier` unchanged. -/
theorem shift_offset_linearity (st : OverlayState) (delta er : ℚ) :
    elapsed_subtitle (shift_offset st delta) er =
      elapsed_subtitle st er + delta ∧
    (shift_offset st delta).start_offset = st.start_offset + delta ∧
    (shift_offset st delta).time_multiplier = st.time_multiplier := by
  refine ⟨?_, by simp [shift_offset], by simp [shift_offset]⟩
  simp only [shift_offset, elapsed_subtitle]
  ring

/-- Claim C10: frame property of scale recalibration.
`adjust_time_multiplier` mutates only `start_offset` and
`time_multiplier`; `paused`, `pause_time`, `elapsed_paused`,
`playback_start` (and the caption store, cache and timer toggle) are
unchanged for every state and either direction. -/
theorem adjust_scale_frame (st : OverlayState) (now : ℚ) (inc : Bool) :
    (adjust_time_multiplier st now inc).paused = st.paused ∧
    (adjust_time_multiplier st now inc).pause_time = st.pause_time ∧
    (adjust_time_multiplier st now inc).elapsed_paused = st.elapsed_paused ∧
    (adjust_time_multiplier st now inc).playback_start = st.playback_start ∧
    (adjust_time_multiplier st now inc).subtitles = st.subtitles ∧
    (adjust_time_multiplier st now inc).current_subtitle =
      st.current_subtitle ∧
    (adjust_time_multiplier st now inc).show_timer = st.show_timer := by
  simp [adjust_time_multiplier]

/-! ## Helper lemmas on the Python arithmetic model -/

lemma pyInt_intCast (k : ℤ) : pyInt (k : ℚ) = k := by
  unfold pyInt
  split <;> simp

lemma floor_div_pos_int (a : ℚ) (d : ℤ) (hd : 0 < d) :
    ⌊a / (d : ℚ)⌋ = ⌊a⌋ / d := by
  have hd0 : (0 : ℚ) < (d : ℚ) := by exact_mod_cast hd
  rw [Int.floor_eq_iff]
  constructor
  · rw [le_div_iff₀ hd0]
    have h4 := Int.ediv_add_emod ⌊a⌋ d
    have h5 := Int.emod_nonneg ⌊a⌋ (ne_of_gt hd)
    have h1 : (⌊a⌋ / d) * d ≤ ⌊a⌋ := by nlinarith
    calc ((⌊a⌋ / d : ℤ) : ℚ) * (d : ℚ) = (((⌊a⌋ / d) * d : ℤ) : ℚ) := by
          push_cast; ring
      _ ≤ ((⌊a⌋ : ℤ) : ℚ) := by exact_mod_cast h1
      _ ≤ a := Int.floor_le a
  · rw [div_lt_iff₀ hd0]
    have h3 := Int.emod_lt_of_pos ⌊a⌋ hd
    have h4 := Int.ediv_add_emod ⌊a⌋ d
    have h2 : ⌊a⌋ + 1 ≤ (⌊a⌋ / d + 1) * d := by nlinarith
    calc a < (⌊a⌋ : ℚ) + 1 := Int.lt_floor_add_one a
      _ ≤ ((⌊a⌋ / d : ℤ) + 1 : ℚ) * (d : ℚ) := by exact_mod_cast h2

lemma pyMod_nonneg (a b : ℚ) (hb : 0 < b) : 0 ≤ pyMod a b := by
  unfold pyMod
  have h := Int.floor_le (a / b)
  have h2 : b * (a / b) = a := by field_simp
  nlinarith

lemma pyMod_lt (a b : ℚ) (hb : 0 < b) : pyMod a b < b := by
  unfold pyMod
  have h := Int.lt_floor_add_one (a / b)
  have h2 : b * (a / b) = a := by field_simp
  nlinarith

/-! ## Claim C2: first-match caption lookup -/

lemma find_subtitle_eq_find (subs : List Subtitle) (v : ℚ) :
    find_subtitle subs v =
      (((subs.find? fun s => decide (s.start ≤ v ∧ v ≤ s.stop)).map
        Subtitle.text).getD "") := by
  induction subs with
  | nil => rfl
  | cons s rest ih =>
      by_cases h : s.start ≤ v ∧ v ≤ s.stop
      · simp [find_subtitle, List.find?, h]
      · simp [find_subtitle, List.find?, h, ih]

/-- Claim C2: the lookup scans the captions in file order and returns the
text of the first caption whose interval satisfies `start ≤ v ≤ end`
(both bounds inclusive), returning `""` when no caption matches; on the
spec's example list, `find 1 = "Hello"`, `find 2 = "Hello"` (shared
boundary resolved to file order), `find 3 = "World"`, `find 5 = ""`. -/
theorem find_subtitle_first_match :
    (∀ (subs : List Subtitle) (v : ℚ),
      find_subtitle subs v =
        (((subs.find? fun s => decide (s.start ≤ v ∧ v ≤ s.stop)).map
          Subtitle.text).getD "")) ∧
    find_subtitle sampleCaptions 1 = "Hello" ∧
    find_subtitle sampleCaptions 2 = "Hello" ∧
    find_subtitle sampleCaptions 3 = "World" ∧
    find_subtitle sampleCaptions 5 = "" :=
  ⟨find_subtitle_eq_find, by decide, by decide, by decide, by decide⟩

/-! ## Claim C3: scale clamping -/

/-- Modelled from the spec's words, for comparison with the code:
`clamp(x, lo, hi) = max lo (min hi x)`. -/
def spec_clamp (x lo hi : ℚ) : ℚ := max lo (min hi x)

/-- Iterated calls of `adjust_time_multiplier` in a fixed direction, with
an arbitrary sequence of wall-clock readings. -/
def adjust_iter (st : OverlayState) (nows : ℕ → ℚ) (inc : Bool) :
    ℕ → OverlayState
  | 0 => st
  | n + 1 => adjust_time_multiplier (adjust_iter st nows inc n) (nows n) inc

lemma adjust_iter_tm_true (st : OverlayState) (nows : ℕ → ℚ) (n : ℕ) :
    (adjust_iter st nows true (n + 1)).time_multiplier =
      min 122 (st.time_multiplier + (n + 1 : ℚ) / 1000) := by
  induction n with
  | zero =>
      show (adjust_time_multiplier (adjust_iter st nows true 0)
        (nows 0) true).time_multiplier = _
      simp [adjust_iter, adjust_time_multiplier]
      norm_num
  | succ k ih =>
      show (adjust_time_multiplier (adjust_iter st nows true (k + 1))
        (nows (k + 1)) true).time_multiplier = _
      simp only [adjust_time_multiplier]
      rw [ih]
      push_cast
      rcases le_or_lt (st.time_multiplier + ((k : ℚ) + 1) / 1000) 122 with h | h
      · rw [min_eq_right h]
        norm_num
        congr 1
        ring
      · rw [min_eq_left h.le]
        rw [show ((0.001 : ℚ)) = 1 / 1000 by norm_num,
            show ((122.0 : ℚ)) = 122 by norm_num]
        rw [min_eq_left (by norm_num : (122 : ℚ) ≤ 122 + 1 / 1000)]
        rw [min_eq_left (by linarith : (122 : ℚ) ≤
          st.time_multiplier + ((k : ℚ) + 1 + 1) / 1000)]

lemma adjust_iter_tm_false (st : OverlayState) (nows : ℕ → ℚ) (n : ℕ) :
    (adjust_iter st nows false (n + 1)).time_multiplier =
      max (1 / 10) (st.time_multiplier - (n + 1 : ℚ) / 1000) := by
  induction n with
  | zero =>
      show (adjust_time_multiplier (adjust_iter st nows false 0)
        (nows 0) false).time_multiplier = _
      simp [adjust_iter, adjust_time_multiplier]
      norm_num
  | succ k ih =>
      show (adjust_time_multiplier (adjust_iter st nows false (k + 1))
        (nows (k + 1)) false).time_multiplier = _
      simp only [adjust_time_multiplier]
      rw [ih]
      push_cast
      rcases le_or_lt (1 / 10 : ℚ) (st.time_multiplier - ((k : ℚ) + 1) / 1000)
        with h | h
      · rw [max_eq_right h]
        norm_num
        congr 1
        ring
      · rw [max_eq_left h.le]
        rw [show ((0.001 : ℚ)) = 1 / 1000 by norm_num,
            show ((0.1 : ℚ)) = 1 / 10 by norm_num]
        rw [max_eq_left (by norm_num : (1 / 10 : ℚ) - 1 / 1000 ≤ 1 / 10)]
        rw [max_eq_left (by linarith :
          st.time_multiplier - ((k : ℚ) + 1 + 1) / 1000 ≤ 1 / 10)]

/-- Claim C3 counterexample: the claim says a call computes
`clamp(scaleFactor ± 0.001, 0.1, 122.0)` for every current scale and that
the result always lies in `[0.1, 122.0]`. Starting from
`time_multiplier = -5` (an allowed startup configuration), an increase
yields `-4.999`, not the clamped value `0.1`, and the result is below
`0.1`: the code only caps increases from above and decreases from below. -/
theorem adjust_scale_clamp_counterexample :
    (adjust_time_multiplier { baseState with time_multiplier := -5 } 0
        true).time_multiplier = -(4999 / 1000) ∧
    spec_clamp ((-5 : ℚ) + 1 / 1000) (1 / 10) 122 = 1 / 10 ∧
    (adjust_time_multiplier { baseState with time_multiplier := -5 } 0
        true).time_multiplier ≠
      spec_clamp ((-5 : ℚ) + 1 / 1000) (1 / 10) 122 ∧
    ¬ (1 / 10 ≤ (adjust_time_multiplier { baseState with time_multiplier := -5 }
        0 true).time_multiplier) := by
  refine ⟨?_, ?_, ?_, ?_⟩ <;>
    norm_num [adjust_time_multiplier, baseState, spec_clamp, min_def, max_def]

/-- Claim C3 (amended): a single `adjust_time_multiplier` call computes
`min 122 (scale + 0.001)` on increase and `max 0.1 (scale - 0.001)` on
decrease (one-sided caps, which agree with the two-sided clamp whenever
the current scale already lies in `[0.1, 122]`, so from any in-range scale
the result stays in `[0.1, 122]`); from any starting scale, repeatedly
increasing reaches and stays at `122.0`, and repeatedly decreasing reaches
and stays at `0.1`. -/
theorem adjust_scale_clamping (st : OverlayState) (now : ℚ)
    (nows : ℕ → ℚ) (n : ℕ) :
    ((adjust_time_multiplier st now true).time_multiplier =
        min 122 (st.time_multiplier + 1 / 1000) ∧
     (adjust_time_multiplier st now false).time_multiplier =
        max (1 / 10) (st.time_multiplier - 1 / 1000)) ∧
    (∀ inc : Bool, 1 / 10 ≤ st.time_multiplier → st.time_multiplier ≤ 122 →
      1 / 10 ≤ (adjust_time_multiplier st now inc).time_multiplier ∧
      (adjust_time_multiplier st now inc).time_multiplier ≤ 122) ∧
    (1 ≤ n → (122 - st.time_multiplier) * 1000 ≤ (n : ℚ) →
      (adjust_iter st nows true n).time_multiplier = 122) ∧
    (1 ≤ n → (st.time_multiplier - 1 / 10) * 1000 ≤ (n : ℚ) →
      (adjust_iter st nows false n).time_multiplier = 1 / 10) := by
  have hfor : (adjust_time_multiplier st now true).time_multiplier =
      min 122 (st.time_multiplier + 1 / 1000) := by
    simp only [adjust_time_multiplier]
    norm_num
  have hbak : (adjust_time_multiplier st now false).time_multiplier =
      max (1 / 10) (st.time_multiplier - 1 / 1000) := by
    simp only [adjust_time_multiplier]
    norm_num
  refine ⟨⟨hfor, hbak⟩, ?_, ?_, ?_⟩
  · intro inc hlo hhi
    cases inc
    · rw [hbak]
      constructor
      · exact le_max_left _ _
      · exact max_le (by norm_num) (by linarith)
    · rw [hfor]
      constructor
      · exact le_min (by norm_num) (by linarith)
      · exact min_le_left _ _
  · intro hn hconv
    obtain ⟨m, rfl⟩ : ∃ m, n = m + 1 := ⟨n - 1, by omega⟩
    rw [adjust_iter_tm_true]
    have hcast : ((m + 1 : ℕ) : ℚ) = (m : ℚ) + 1 := by push_cast; ring
    rw [hcast] at hconv
    exact min_eq_left (by linarith)
  · intro hn hconv
    obtain ⟨m, rfl⟩ : ∃ m, n = m + 1 := ⟨n - 1, by omega⟩
    rw [adjust_iter_tm_false]
    have hcast : ((m + 1 : ℕ) : ℚ) = (m : ℚ) + 1 := by push_cast; ring
    rw [hcast] at hconv
    exact max_eq_left (by linarith)

theorem adjust_scale_clamping_witness :
    (1 ≤ 98000) ∧
    ((122 - baseState.time_multiplier) * 1000 ≤ ((98000 : ℕ) : ℚ) ∧
     (baseState.time_multiplier - 1 / 10) * 1000 ≤ ((98000 : ℕ) : ℚ) ∧
     1 / 10 ≤ baseState.time_multiplier ∧ baseState.time_multiplier ≤ 122) ∧
    ((adjust_iter baseState (fun _ => 5) true 98000).time_multiplier = 122 ∧
     (adjust_iter baseState (fun _ => 5) false 98000).time_multiplier = 1 / 10 ∧
     1 / 10 ≤ (adjust_time_multiplier baseState 5 true).time_multiplier ∧
     (adjust_time_multiplier baseState 5 true).time_multiplier ≤ 122) := by
  have h1 : (1 : ℕ) ≤ 98000 := by norm_num
  have h2 : (122 - baseState.time_multiplier) * 1000 ≤ ((98000 : ℕ) : ℚ) := by
    norm_num [baseState]
  have h3 : (baseState.time_multiplier - 1 / 10) * 1000 ≤ ((98000 : ℕ) : ℚ) := by
    norm_num [baseState]
  have h4 : (1 / 10 : ℚ) ≤ baseState.time_multiplier := by norm_num [baseState]
  have h5 : baseState.time_multiplier ≤ 122 := by norm_num [baseState]
  have T := adjust_scale_clamping baseState 5 (fun _ => 5) 98000
  exact ⟨h1, ⟨h2, h3, h4, h5⟩,
    T.2.2.1 h1 h2, T.2.2.2 h1 h3, T.2.1 true h4 h5⟩

/-! ## Claim C7: parser interval invariant -/

/-- Claim C7 counterexample: the regex in `parse_srt` matches any pair of
well-formed timestamps without comparing them, so a source file whose
record reads `00:00:05,000 --> 00:00:01,000` produces a caption with
`start = 5 > 1 = end`, violating the claimed `start ≤ end` invariant. -/
theorem parse_srt_interval_counterexample :
    (parsed_caption ⟨0, 0, 5, 0⟩ ⟨0, 0, 1, 0⟩ "x").start = 5 ∧
    (parsed_caption ⟨0, 0, 5, 0⟩ ⟨0, 0, 1, 0⟩ "x").stop = 1 ∧
    ¬ ((parsed_caption ⟨0, 0, 5, 0⟩ ⟨0, 0, 1, 0⟩ "x").start ≤
        (parsed_caption ⟨0, 0, 5, 0⟩ ⟨0, 0, 1, 0⟩ "x").stop) := by
  refine ⟨?_, ?_, ?_⟩ <;> norm_num [parsed_caption, time_to_seconds]

/-- Claim C7 (amended): every caption produced by the parser satisfies
`0 ≤ start`, and `start ≤ end` holds exactly when the two source
timestamps are ordered (`time_to_seconds t1 ≤ time_to_seconds t2`); the
parser performs no ordering check of its own. -/
theorem parse_srt_caption_invariant (t1 t2 : Timestamp) (text : String) :
    0 ≤ (parsed_caption t1 t2 text).start ∧
    ((parsed_caption t1 t2 text).start ≤ (parsed_caption t1 t2 text).stop ↔
      time_to_seconds t1 ≤ time_to_seconds t2) := by
  constructor
  · unfold parsed_caption time_to_seconds
    positivity
  · simp [parsed_caption]

/-! ## Claim C8: edge-triggered caption emission -/

/-- Claim C8: on every tick, a caption-changed emission (updating the
displayed text and the cached `current_subtitle`) happens iff the lookup
result for the current virtual time differs from the previously emitted
text, including to/from `""`; when the text is unchanged the state is left
entirely untouched and nothing is emitted. -/
theorem update_subtitle_edge_triggered (st : OverlayState) (now : ℚ) :
    (find_subtitle st.subtitles (elapsed_subtitle st (get_elapsed_real st now))
        ≠ st.current_subtitle →
      (update_subtitle st now).2.1 =
        some (find_subtitle st.subtitles
          (elapsed_subtitle st (get_elapsed_real st now))) ∧
      (update_subtitle st now).1 =
        { st with current_subtitle := find_subtitle st.subtitles (elapsed_subtitle st (get_elapsed_real st now)) }) ∧
    (find_subtitle st.subtitles (elapsed_subtitle st (get_elapsed_real st now))
        = st.current_subtitle →
      (update_subtitle st now).2.1 = none ∧
      (update_subtitle st now).1 = st) := by
  unfold update_subtitle
  constructor <;> intro h <;> simp [h]

theorem update_subtitle_edge_triggered_witness :
    find_subtitle ({ baseState with subtitles := [], current_subtitle := "X" } : OverlayState).subtitles
        (elapsed_subtitle { baseState with subtitles := [], current_subtitle := "X" }
          (get_elapsed_real { baseState with subtitles := [], current_subtitle := "X" } 1)) ≠
      ({ baseState with subtitles := [], current_subtitle := "X" } : OverlayState).current_subtitle ∧
    (update_subtitle { baseState with subtitles := [], current_subtitle := "X" } 1).2.1 =
      some (find_subtitle ({ baseState with subtitles := [], current_subtitle := "X" } : OverlayState).subtitles
        (elapsed_subtitle { baseState with subtitles := [], current_subtitle := "X" }
          (get_elapsed_real { baseState with subtitles := [], current_subtitle := "X" } 1))) :=
  ⟨by decide,
    ((update_subtitle_edge_triggered
      { baseState with subtitles := [], current_subtitle := "X" } 1).1 (by decide)).1⟩

/-! ## Claim C9: timer readout -/

lemma floor_eval (x : ℚ) (z : ℤ) (h1 : (z : ℚ) ≤ x) (h2 : x < z + 1) :
    ⌊x⌋ = z :=
  Int.floor_eq_iff.mpr ⟨h1, h2⟩

lemma floor_pyMod_int (v : ℚ) (d : ℤ) (hd : 0 < d) :
    ⌊pyMod v (d : ℚ)⌋ = ⌊v⌋ % d := by
  unfold pyMod
  rw [floor_div_pos_int v d hd]
  rw [show ((d : ℚ) * ((⌊v⌋ / d : ℤ) : ℚ)) = (((d * (⌊v⌋ / d) : ℤ)) : ℚ) by
    push_cast; ring]
  rw [Int.floor_sub_int, Int.emod_def]

lemma timer_hours_eq (v : ℚ) : timer_hours v = ⌊v⌋ / 3600 := by
  unfold timer_hours pyFloorDiv
  rw [pyInt_intCast, show ((3600 : ℚ)) = ((3600 : ℤ) : ℚ) by norm_num,
    floor_div_pos_int v 3600 (by norm_num)]

lemma timer_minutes_eq (v : ℚ) : timer_minutes v = (⌊v⌋ % 3600) / 60 := by
  unfold timer_minutes pyFloorDiv
  rw [pyInt_intCast]
  rw [show ((3600 : ℚ)) = ((3600 : ℤ) : ℚ) by norm_num,
      show ((60 : ℚ)) = ((60 : ℤ) : ℚ) by norm_num]
  rw [floor_div_pos_int _ 60 (by norm_num), floor_pyMod_int v 3600 (by norm_num)]

lemma timer_seconds_eq (v : ℚ) : timer_seconds v = ⌊v⌋ % 60 := by
  unfold timer_seconds pyInt
  rw [show ((60 : ℚ)) = ((60 : ℤ) : ℚ) by norm_num]
  rw [if_pos (pyMod_nonneg v ((60 : ℤ) : ℚ) (by norm_num))]
  exact floor_pyMod_int v 60 (by norm_num)

lemma timer_milliseconds_eq (v : ℚ) (hv : 0 ≤ v) :
    timer_milliseconds v = ⌊(1000 : ℚ) * v⌋ - 1000 * ⌊v⌋ := by
  unfold timer_milliseconds
  rw [show pyInt v = ⌊v⌋ by unfold pyInt; rw [if_pos hv]]
  have h2 : (0 : ℚ) ≤ (v - (⌊v⌋ : ℚ)) * 1000 := by
    have h := Int.floor_le v
    nlinarith
  unfold pyInt
  rw [if_pos h2]
  rw [show (v - ((⌊v⌋ : ℤ) : ℚ)) * 1000 =
      (1000 : ℚ) * v - ((1000 * ⌊v⌋ : ℤ) : ℚ) by push_cast; ring]
  rw [Int.floor_sub_int]

lemma floor_thousand_le (v : ℚ) : 1000 * ⌊v⌋ ≤ ⌊(1000 : ℚ) * v⌋ := by
  rw [Int.le_floor]
  push_cast
  nlinarith [Int.floor_le v]

lemma floor_thousand_lt (v : ℚ) : ⌊(1000 : ℚ) * v⌋ < 1000 * (⌊v⌋ + 1) := by
  rw [Int.floor_lt]
  push_cast
  nlinarith [Int.lt_floor_add_one v]

/-- Claim C9 counterexample: the claim asserts the HH:MM:SS.mmm components
are a truncation of `v` for every virtual time `v`. At `v = -0.5`
(reachable with a negative offset) the code yields `milliseconds = -500`
(not a valid field) and the components do not reconstruct the truncation
of `v` to milliseconds: they sum to -1500 ms against `⌊1000 v⌋ = -500`. -/
theorem timer_truncation_counterexample :
    timer_milliseconds (-(1 / 2)) = -500 ∧
    timer_milliseconds (-(1 / 2)) < 0 ∧
    timer_hours (-(1 / 2)) * 3600000 + timer_minutes (-(1 / 2)) * 60000 +
      timer_seconds (-(1 / 2)) * 1000 + timer_milliseconds (-(1 / 2)) ≠
      ⌊(1000 : ℚ) * (-(1 / 2))⌋ := by
  have hh : timer_hours (-(1 / 2)) = -1 := by
    unfold timer_hours pyFloorDiv
    rw [pyInt_intCast]
    exact floor_eval _ (-1) (by norm_num) (by norm_num)
  have hin : ⌊(-(1 / 2) : ℚ) / 3600⌋ = -1 :=
    floor_eval _ (-1) (by norm_num) (by norm_num)
  have hm : timer_minutes (-(1 / 2)) = 59 := by
    unfold timer_minutes pyFloorDiv pyMod
    rw [pyInt_intCast, hin]
    rw [show ((-(1 / 2) : ℚ) - 3600 * ((-1 : ℤ) : ℚ)) / 60 = 7199 / 120 by
      push_cast; norm_num]
    exact floor_eval _ 59 (by norm_num) (by norm_num)
  have hq : pyMod (-(1 / 2) : ℚ) 60 = 119 / 2 := by
    unfold pyMod
    rw [show ⌊(-(1 / 2) : ℚ) / 60⌋ = -1 from
      floor_eval _ (-1) (by norm_num) (by norm_num)]
    push_cast
    norm_num
  have hs : timer_seconds (-(1 / 2)) = 59 := by
    unfold timer_seconds pyInt
    rw [hq, if_pos (by norm_num : (0 : ℚ) ≤ 119 / 2)]
    exact floor_eval _ 59 (by norm_num) (by norm_num)
  have hpi : pyInt (-(1 / 2) : ℚ) = 0 := by
    unfold pyInt
    rw [if_neg (by norm_num : ¬ (0 : ℚ) ≤ -(1 / 2))]
    exact Int.ceil_eq_iff.mpr ⟨by norm_num, by norm_num⟩
  have hms : timer_milliseconds (-(1 / 2)) = -500 := by
    unfold timer_milliseconds
    rw [hpi]
    rw [show ((-(1 / 2) : ℚ) - ((0 : ℤ) : ℚ)) * 1000 = ((-500 : ℤ) : ℚ) by
      push_cast; norm_num]
    unfold pyInt
    rw [if_neg (by norm_num : ¬ (0 : ℚ) ≤ ((-500 : ℤ) : ℚ))]
    exact Int.ceil_intCast _
  have hfl : ⌊(1000 : ℚ) * (-(1 / 2))⌋ = -500 := by
    rw [show (1000 : ℚ) * (-(1 / 2)) = ((-500 : ℤ) : ℚ) by norm_num]
    exact Int.floor_intCast _
  rw [hh, hm, hs, hms, hfl]
  norm_num

/-- Claim C9 (amended): when `show_timer` is set, every tick emits the
timer text unconditionally (and never emits it otherwise), and for every
nonnegative virtual time `v` the components are obtained by truncation,
not rounding: in-range hours/minutes/seconds/milliseconds fields whose
total millisecond count is exactly `⌊1000 v⌋`. For negative `v` the
components do not form a valid HH:MM:SS.mmm decomposition. -/
theorem timer_readout (st : OverlayState) (now : ℚ) (v : ℚ) :
    (st.show_timer = true →
      (update_subtitle st now).2.2 =
        some (format_timer (elapsed_subtitle st (get_elapsed_real st now)))) ∧
    (st.show_timer = false → (update_subtitle st now).2.2 = none) ∧
    (0 ≤ v →
      (timer_hours v * 3600000 + timer_minutes v * 60000 +
        timer_seconds v * 1000 + timer_milliseconds v = ⌊(1000 : ℚ) * v⌋ ∧
       0 ≤ timer_hours v ∧
       0 ≤ timer_minutes v ∧ timer_minutes v < 60 ∧
       0 ≤ timer_seconds v ∧ timer_seconds v < 60 ∧
       0 ≤ timer_milliseconds v ∧ timer_milliseconds v < 1000)) := by
  refine ⟨?_, ?_, ?_⟩
  · intro h
    unfold update_subtitle
    simp [h]
  · intro h
    unfold update_subtitle
    simp [h]
  · intro hv
    have hn : 0 ≤ ⌊v⌋ := Int.floor_nonneg.mpr hv
    have h5 := floor_thousand_le v
    have h6 := floor_thousand_lt v
    rw [timer_hours_eq, timer_minutes_eq, timer_seconds_eq,
      timer_milliseconds_eq v hv]
    omega

theorem timer_readout_witness :
    ({ baseState with show_timer := true } : OverlayState).show_timer = true ∧
    (0 : ℚ) ≤ 5 ∧
    ((update_subtitle { baseState with show_timer := true } 1).2.2 =
      some (format_timer (elapsed_subtitle { baseState with show_timer := true }
        (get_elapsed_real { baseState with show_timer := true } 1))) ∧
     timer_hours 5 * 3600000 + timer_minutes 5 * 60000 +
       timer_seconds 5 * 1000 + timer_milliseconds 5 = ⌊(1000 : ℚ) * 5⌋) := by
  refine ⟨by decide, by decide, ?_, ?_⟩
  · exact (timer_readout { baseState with show_timer := true } 1 5).1 (by decide)
  · exact ((timer_readout { baseState with show_timer := true } 1 5).2.2
      (by decide)).1
